import Mathlib

/-!
Shallow embedding of `src/index.py`, a single-script Streamlit dashboard that
loads a CSV of Korean economic-activity statistics, filters it by year and
region, and renders a table, summary statistics, a bar chart, a line chart and
a correlation heatmap.

The tabular dataset is embedded as a list of rows.  Each row carries the value
of the `'년도'` (year) column, the `'지역'` (region) column, and the values of
the remaining numeric columns, aligned with the dataset's column-name list.
Numeric cell values are rationals (the CSV holds integer counts and pandas
arithmetic on them is exact); correlation entries live in `ℝ` because of the
square root in Pearson's formula, and are `Option ℝ` because pandas produces
NaN when a sum of squared deviations vanishes.
-/

namespace Silla

/-- One record of the dataset: the `'년도'` value, the `'지역'` value, and the
values of the remaining numeric columns (in the dataset's column order). -/
structure Row where
  year : Int
  region : String
  numerics : List ℚ
deriving DecidableEq

/-- The loaded dataframe: names of the numeric columns other than `'년도'`,
and the list of rows in file order.  The `'지역'` column is the only
non-numeric column of the CSV, so `select_dtypes(include=['number'])` yields
`'년도'` followed by `numCols`. -/
structure Dataset where
  numCols : List String
  rows : List Row
deriving DecidableEq

/-- Python `sorted(xs.unique())` for the integer `'년도'` column: distinct
values in first-occurrence order, then sorted ascending. -/
def sortedUniqueInt (xs : List Int) : List Int :=
  List.insertionSort (· ≤ ·) xs.dedup

/-- Python `sorted(xs.unique())` for the string `'지역'` column. -/
def sortedUniqueStr (xs : List String) : List String :=
  List.insertionSort (· ≤ ·) xs.dedup

/-- Line 37: `all_years = sorted(df['년도'].unique())`. -/
def all_years (d : Dataset) : List Int := sortedUniqueInt (d.rows.map (·.year))

/-- Line 42: `all_regions = sorted(df['지역'].unique())`. -/
def all_regions (d : Dataset) : List String :=
  sortedUniqueStr (d.rows.map (·.region))

/-- Line 43: `default_regions = [region for region in all_regions if region != '계']`. -/
def default_regions (d : Dataset) : List String :=
  (all_regions d).filter (fun region => region != "계")

/-- The boolean mask of line 47:
`(df['년도'].isin(selected_years)) & (df['지역'].isin(selected_regions))`. -/
def rowMask (Y : List Int) (R : List String) (r : Row) : Bool :=
  Y.contains r.year && R.contains r.region

/-- Line 47 (row part): boolean-mask selection keeps exactly the qualifying
rows, in dataframe order. -/
def filteredRows (d : Dataset) (Y : List Int) (R : List String) : List Row :=
  d.rows.filter (rowMask Y R)

/-- Line 47: `filtered_df = df[(df['년도'].isin(selected_years)) & (df['지역'].isin(selected_regions))]`:
same columns, masked rows. -/
def filteredDf (d : Dataset) (Y : List Int) (R : List String) : Dataset :=
  ⟨d.numCols, filteredRows d Y R⟩

/-- Value of numeric column `c` in row `r` (`cols` being the dataframe's
numeric-column names besides `'년도'`).  The missing-column default is never
exercised when `c` names an actual column of the row. -/
def colVal (cols : List String) (r : Row) (c : String) : ℚ :=
  (List.lookup c (cols.zip r.numerics)).getD 0

/-- The fixed metric list offered by both chart selectboxes (lines 70, 100). -/
def metricOptions : List String :=
  ["경제활동인구 (천명)", "취업자 (천명)", "실업자 (천명)"]

/-- Line 77: `year_df = filtered_df[filtered_df['년도'] == comp_year]`. -/
def yearSubset (f : Dataset) (y : Int) : Dataset :=
  ⟨f.numCols, f.rows.filter (fun r => r.year == y)⟩

/-- Line 107: `region_df = filtered_df[filtered_df['지역'] == trend_region]`. -/
def regionSubset (f : Dataset) (t : String) : Dataset :=
  ⟨f.numCols, f.rows.filter (fun r => r.region == t)⟩

/-- Outcome of a chart container: `st.info` placeholder, `st.warning`
placeholder, or a rendered chart with its plotted payload. -/
inductive StageOut (α : Type) where
  | info
  | warning
  | chart (a : α)
deriving DecidableEq

/-- Arithmetic mean, as used by seaborn's default estimator when several rows
share an x value. -/
def mean (xs : List ℚ) : ℚ := xs.sum / (xs.length : ℚ)

/-- The bars drawn by `sns.barplot(data=year_df, x='지역', y=bar_metric)`
(line 81): one bar per distinct region in order of first appearance, height
the mean of the metric over that region's rows (the estimator mean reduces to
the row's own value when the region occurs once). -/
def barBars (f : Dataset) (m : String) : List (String × ℚ) :=
  ((f.rows.map (·.region)).dedup).map fun g =>
    (g, mean ((f.rows.filter (fun r => r.region == g)).map fun r =>
      colVal f.numCols r m))

/-- Lines 62-89, the bar-chart container: placeholder logic and plotted
bars. -/
def barStage (f : Dataset) (selYears : List Int) (m : String) (compYear : Int) :
    StageOut (List (String × ℚ)) :=
  if f.rows ≠ [] ∧ selYears ≠ [] then
    if (yearSubset f compYear).rows ≠ [] then
      .chart (barBars (yearSubset f compYear) m)
    else .warning
  else .info

/-- The points drawn by `sns.lineplot(data=region_df, x='년도', y=line_metric)`
(line 111): seaborn sorts by x and aggregates duplicates with the mean, so one
point per distinct year in ascending order. -/
def linePoints (f : Dataset) (m : String) : List (Int × ℚ) :=
  (sortedUniqueInt (f.rows.map (·.year))).map fun y =>
    (y, mean ((f.rows.filter (fun r => r.year == y)).map fun r =>
      colVal f.numCols r m))

/-- Line 113: `plt.xticks(sorted(region_df['년도'].unique()))`. -/
def lineTicks (f : Dataset) : List Int := sortedUniqueInt (f.rows.map (·.year))

/-- Lines 92-119, the line-chart container: placeholder logic, plotted points
and forced x ticks. -/
def lineStage (f : Dataset) (selRegions : List String) (m : String)
    (trendRegion : String) : StageOut ((List (Int × ℚ)) × List Int) :=
  if f.rows ≠ [] ∧ selRegions ≠ [] then
    if (regionSubset f trendRegion).rows ≠ [] then
      .chart (linePoints (regionSubset f trendRegion) m,
        lineTicks (regionSubset f trendRegion))
    else .warning
  else .info

/-- Line 128: `numeric_cols = filtered_df.select_dtypes(include=['number']).columns.tolist()`:
the `'년도'` column followed by the other numeric columns. -/
def numericCols (f : Dataset) : List String := "년도" :: f.numCols

/-- The column `c` of the dataframe as a series of rationals. -/
def seriesOf (f : Dataset) (c : String) : List ℚ :=
  if c = "년도" then f.rows.map fun r => (r.year : ℚ)
  else f.rows.map fun r => colVal f.numCols r c

/-- Deviations from the mean. -/
def dev (xs : List ℚ) : List ℚ := xs.map fun x => x - mean xs

/-- Sum of squared deviations from the mean. -/
def ssqdm (xs : List ℚ) : ℚ := ((dev xs).map fun x => x * x).sum

/-- Sum of products of paired deviations. -/
def covS (xs ys : List ℚ) : ℚ :=
  (((dev xs).zip (dev ys)).map fun p => p.1 * p.2).sum

/-- Pearson correlation of two equal-length series as pandas `DataFrame.corr`
computes it: `Σ dx·dy / sqrt(Σ dx² · Σ dy²)`, with NaN (here `none`) when the
divisor vanishes (constant or empty column). -/
noncomputable def nancorr (xs ys : List ℚ) : Option ℝ :=
  if ssqdm xs * ssqdm ys = 0 then none
  else some ((covS xs ys : ℝ) / Real.sqrt ((ssqdm xs : ℝ) * (ssqdm ys : ℝ)))

/-- One entry of `filtered_df[numeric_cols].corr()` (line 131). -/
noncomputable def corrEntry (f : Dataset) (c1 c2 : String) : Option ℝ :=
  nancorr (seriesOf f c1) (seriesOf f c2)

/-- The full correlation matrix of line 131, one row of entries per numeric
column. -/
noncomputable def corrMatrix (f : Dataset) : List (List (Option ℝ)) :=
  (numericCols f).map fun c1 => (numericCols f).map fun c2 => corrEntry f c1 c2

/-- Lines 122-140, the correlation-heatmap container. -/
noncomputable def heatStage (f : Dataset) : StageOut (List (List (Option ℝ))) :=
  if f.rows ≠ [] then
    if (numericCols f).length > 1 then .chart (corrMatrix f) else .warning
  else .info

/-- The spec's formula for Pearson correlation: `cov(X,Y) / (σX·σY)` with
`cov(X,Y) = Σ dx·dy / N` and `σX = sqrt(Σ dx² / N)`. -/
noncomputable def pearsonSpec (xs ys : List ℚ) : ℝ :=
  ((covS xs ys : ℝ) / (xs.length : ℝ)) /
    (Real.sqrt ((ssqdm xs : ℝ) / (xs.length : ℝ)) *
      Real.sqrt ((ssqdm ys : ℝ) / (ys.length : ℝ)))

/-- The values of the widgets the script reads on one run. -/
structure Selections where
  years : List Int
  regions : List String
  barMetric : String
  compYear : Int
  lineMetric : String
  trendRegion : String

/-- Everything the guarded body (lines 30-140) renders on one run. -/
structure BodyOut where
  yearOptions : List Int
  yearDefault : List Int
  regionOptions : List String
  regionDefault : List String
  table : List Row
  rowCount : Nat
  bar : StageOut (List (String × ℚ))
  line : StageOut ((List (Int × ℚ)) × List Int)
  heat : StageOut (List (List (Option ℝ)))

/-- The body of the `if df is not None:` guard, threading the loaded dataset
through explicitly: the script only ever reads `df`, so the second component
returns it as-is. -/
noncomputable def runBody (d : Dataset) (s : Selections) : BodyOut × Dataset :=
  (⟨all_years d, all_years d, all_regions d, default_regions d,
    (filteredDf d s.years s.regions).rows,
    (filteredDf d s.years s.regions).rows.length,
    barStage (filteredDf d s.years s.regions) s.years s.barMetric s.compYear,
    lineStage (filteredDf d s.years s.regions) s.regions s.lineMetric
      s.trendRegion,
    heatStage (filteredDf d s.years s.regions)⟩, d)

/-- The `st.error` message of line 25. -/
def errMsg : String :=
  "'경제활동_통합.csv' 파일을 찾을 수 없습니다. app.py와 같은 폴더에 있는지 확인해주세요."

/-- Lines 19-26, `load_data()`: the file either parses to a dataset or is
missing; a missing file is caught, emits one error message and yields `None`
instead of propagating the exception. -/
def load_data (file : Option Dataset) : Option Dataset × List String :=
  match file with
  | some d => (some d, [])
  | none => (none, [errMsg])

/-- The whole script's user-visible output: error messages plus, when the
dataset is present, the rendered body. -/
structure AppOut where
  errors : List String
  body : Option BodyOut

/-- Lines 28-140: load, then render the body only under the
`if df is not None:` guard. -/
noncomputable def runApp (file : Option Dataset) (s : Selections) : AppOut :=
  match load_data file with
  | (some d, msgs) => ⟨msgs, some (runBody d s).1⟩
  | (none, msgs) => ⟨msgs, none⟩

/-! Sample data, taken from the spec's fixed sample
`{(2020, A, 100, 90, 10), (2020, B, 200, 180, 20), (2021, A, 110, 95, 15)}`
with the three metric columns of the CSV. -/

/-- Sample row (2020, A, 100, 90, 10). -/
def rowA20 : Row := ⟨2020, "A", [100, 90, 10]⟩

/-- Sample row (2020, B, 200, 180, 20). -/
def rowB20 : Row := ⟨2020, "B", [200, 180, 20]⟩

/-- Sample row (2021, A, 110, 95, 15). -/
def rowA21 : Row := ⟨2021, "A", [110, 95, 15]⟩

/-- Sample row tagged with the aggregate sentinel region. -/
def rowT20 : Row := ⟨2020, "계", [300, 270, 30]⟩

/-- The CSV's metric columns. -/
def sampleCols : List String := ["경제활동인구 (천명)", "취업자 (천명)", "실업자 (천명)"]

/-- The spec's sample dataset. -/
def dS : Dataset := ⟨sampleCols, [rowA20, rowB20, rowA21]⟩

/-- The sample dataset extended with an aggregate-sentinel row. -/
def dT : Dataset := ⟨sampleCols, [rowA20, rowB20, rowA21, rowT20]⟩

/-- The sample restricted to region A's two years, for the line chart. -/
def dA : Dataset := ⟨sampleCols, [rowA20, rowA21]⟩

/-- A dataset whose only numeric column is `'년도'`. -/
def dOneCol : Dataset := ⟨[], [⟨2020, "A", []⟩]⟩

/-- A single-row dataset: every column of it is constant. -/
def dOne : Dataset := ⟨["취업자 (천명)"], [⟨2020, "A", [90]⟩]⟩

end Silla

namespace Silla

/-! ### Helper lemmas -/

theorem mem_filteredRows (d : Dataset) (Y : List Int) (R : List String)
    (r : Row) :
    r ∈ filteredRows d Y R ↔ r ∈ d.rows ∧ r.year ∈ Y ∧ r.region ∈ R := by
  simp [filteredRows, rowMask, List.mem_filter, and_assoc]

theorem mem_sortedUniqueInt (xs : List Int) (x : Int) :
    x ∈ sortedUniqueInt xs ↔ x ∈ xs := by
  rw [sortedUniqueInt, (List.perm_insertionSort _ _).mem_iff, List.mem_dedup]

theorem mem_sortedUniqueStr (xs : List String) (x : String) :
    x ∈ sortedUniqueStr xs ↔ x ∈ xs := by
  rw [sortedUniqueStr, (List.perm_insertionSort _ _).mem_iff, List.mem_dedup]

/-! ### Claims about the filter stage -/

/-- Claim C1: for every loaded dataset and every selected year set `Y` and
region set `R`, the filtered result contains exactly the rows of the dataset
whose year is in `Y` and whose region is in `R`, and no other rows; if `Y` or
`R` is empty the filtered result is empty. -/
theorem claim1_filter_membership (d : Dataset) (Y : List Int)
    (R : List String) :
    (∀ r, r ∈ filteredRows d Y R ↔ r ∈ d.rows ∧ r.year ∈ Y ∧ r.region ∈ R) ∧
    ((Y = [] ∨ R = []) → filteredRows d Y R = []) := by
  refine ⟨mem_filteredRows d Y R, ?_⟩
  rintro (rfl | rfl) <;> simp [filteredRows, rowMask]

/-- Witness for C1 on the spec's sample: the 2020 row for region A survives
the filter `{2020} × {A, B}`, and an empty region selection empties the
result. -/
theorem claim1_witness :
    rowA20 ∈ filteredRows dS [2020] ["A", "B"] ∧ filteredRows dS [2020] [] = [] :=
  ⟨((claim1_filter_membership dS [2020] ["A", "B"]).1 rowA20).mpr (by decide),
   (claim1_filter_membership dS [2020] []).2 (Or.inr rfl)⟩

/-- Claim C7: filtering is idempotent — filtering an already-filtered
dataframe by the same year and region selections is the identity. -/
theorem claim7_filter_idempotent (d : Dataset) (Y : List Int)
    (R : List String) :
    filteredDf (filteredDf d Y R) Y R = filteredDf d Y R := by
  simp [filteredDf, filteredRows, List.filter_filter]

/-- Claim C10: the filtered result is a subsequence of the dataset: order is
preserved, each qualifying row keeps its multiplicity, and non-qualifying rows
do not occur. -/
theorem claim10_filter_subsequence (d : Dataset) (Y : List Int)
    (R : List String) :
    (filteredRows d Y R).Sublist d.rows ∧
    (∀ r, rowMask Y R r = true →
      (filteredRows d Y R).count r = d.rows.count r) ∧
    (∀ r, rowMask Y R r = false → (filteredRows d Y R).count r = 0) := by
  refine ⟨List.filter_sublist _, ?_, ?_⟩
  · intro r h
    exact List.count_filter h
  · intro r h
    refine List.count_eq_zero.mpr fun hmem => ?_
    have := (List.mem_filter.mp hmem).2
    rw [h] at this
    exact Bool.false_ne_true this

/-- Witness for C10 on the spec's sample: the qualifying row `(2020, A)`
appears once on both sides, and a row whose mask is false never appears. -/
theorem claim10_witness :
    (filteredRows dS [2020] ["A", "B"]).count rowA20 = dS.rows.count rowA20 ∧
    (filteredRows dS [2020] ["A", "B"]).count rowA21 = 0 :=
  ⟨(claim10_filter_subsequence dS [2020] ["A", "B"]).2.1 rowA20 (by decide),
   (claim10_filter_subsequence dS [2020] ["A", "B"]).2.2 rowA21 (by decide)⟩

/-- Claim C3: the region widget's default selection is exactly the distinct
regions of the dataset minus the aggregate sentinel `"계"`, the year widget's
default is all distinct years, and a row tagged `"계"` is included in the
filtered result once `"계"` is explicitly selected. -/
theorem claim3_default_selections (d : Dataset) :
    (∀ reg, reg ∈ default_regions d ↔
      reg ∈ d.rows.map (·.region) ∧ reg ≠ "계") ∧
    (∀ y, y ∈ all_years d ↔ y ∈ d.rows.map (·.year)) ∧
    (∀ (Y : List Int) (R : List String) (r : Row),
      "계" ∈ R → r ∈ d.rows → r.year ∈ Y → r.region = "계" →
        r ∈ filteredRows d Y R) := by
  refine ⟨?_, ?_, ?_⟩
  · intro reg
    rw [default_regions, List.mem_filter, all_regions, mem_sortedUniqueStr]
    simp [bne_iff_ne]
  · intro y
    rw [all_years, mem_sortedUniqueInt]
  · intro Y R r hR hrow hy hreg
    exact (mem_filteredRows d Y R r).mpr ⟨hrow, hy, hreg ▸ hR⟩

/-- Witness for C3: on the sample extended with an aggregate row, selecting
`"계"` explicitly brings its row into the filtered result, while `"계"` is
never in the default region selection. -/
theorem claim3_witness :
    rowT20 ∈ filteredRows dT [2020] ["계", "A"] ∧ "계" ∉ default_regions dT :=
  ⟨(claim3_default_selections dT).2.2 [2020] ["계", "A"] rowT20 (by decide)
      (by decide) (by decide) (by decide),
   fun h => (((claim3_default_selections dT).1 "계").mp h).2 rfl⟩

end Silla

namespace Silla

/-! ### Claims about loading and the reactive body -/

/-- Claim C2: when the CSV file is missing, the script does not crash: it
emits exactly one user-visible error message, the dataset comes back `None`,
and the whole guarded body (filter widgets, table, statistics, all three
charts) is skipped. -/
theorem claim2_missing_file (s : Selections) :
    load_data none = (none, [errMsg]) ∧
    runApp none s = ⟨[errMsg], none⟩ ∧
    (runApp none s).errors.length = 1 :=
  ⟨rfl, rfl, rfl⟩

/-- Claim C9: the loaded dataset is never mutated: the body hands the dataset
back unchanged, and the filter stage, the per-year bar subset and the
per-region line subset are all subsequences of the original rows. -/
theorem claim9_no_mutation (d : Dataset) (s : Selections) :
    (runBody d s).2 = d ∧
    (filteredDf d s.years s.regions).rows.Sublist d.rows ∧
    (yearSubset (filteredDf d s.years s.regions) s.compYear).rows.Sublist
      d.rows ∧
    (regionSubset (filteredDf d s.years s.regions) s.trendRegion).rows.Sublist
      d.rows :=
  ⟨rfl, List.filter_sublist _,
   (List.filter_sublist _).trans (List.filter_sublist _),
   (List.filter_sublist _).trans (List.filter_sublist _)⟩

/-! ### Claims about the bar-chart container -/

theorem filteredRows_nil_left (d : Dataset) (R : List String) :
    filteredRows d [] R = [] := by
  simp [filteredRows, rowMask]

theorem years_ne_nil_of_filtered {d : Dataset} {Y : List Int}
    {R : List String} (h : filteredRows d Y R ≠ []) : Y ≠ [] := by
  obtain ⟨r, hr⟩ := List.exists_mem_of_ne_nil _ h
  obtain ⟨-, hy, -⟩ := (mem_filteredRows d Y R r).mp hr
  rintro rfl
  exact (List.not_mem_nil r.year) hy

theorem regions_ne_nil_of_filtered {d : Dataset} {Y : List Int}
    {R : List String} (h : filteredRows d Y R ≠ []) : R ≠ [] := by
  obtain ⟨r, hr⟩ := List.exists_mem_of_ne_nil _ h
  obtain ⟨-, -, hreg⟩ := (mem_filteredRows d Y R r).mp hr
  rintro rfl
  exact (List.not_mem_nil r.region) hreg

theorem filter_region_eq_singleton {l : List Row} {r : Row}
    (hnd : (l.map (·.region)).Nodup) (hr : r ∈ l) :
    l.filter (fun x => x.region == r.region) = [r] := by
  induction l with
  | nil => cases hr
  | cons a t ih =>
    rw [List.map_cons, List.nodup_cons] at hnd
    rcases List.mem_cons.mp hr with rfl | hrt
    · rw [List.filter_cons_of_pos (by simp)]
      have ht : t.filter (fun x => x.region == r.region) = [] := by
        refine List.filter_eq_nil_iff.mpr fun x hx hbeq => ?_
        exact hnd.1 ((beq_iff_eq.mp hbeq) ▸ List.mem_map_of_mem _ hx)
      rw [ht]
    · have hne : (a.region == r.region) = false := by
        refine beq_eq_false_iff_ne.mpr fun he => ?_
        exact hnd.1 (he ▸ List.mem_map_of_mem _ hrt)
      rw [List.filter_cons_of_neg (by simp [hne])]
      exact ih hnd.2 hrt

theorem mean_singleton (x : ℚ) : mean [x] = x := by
  simp [mean]

theorem barBars_of_nodup (f : Dataset) (m : String)
    (h : (f.rows.map (·.region)).Nodup) :
    barBars f m = f.rows.map fun r => (r.region, colVal f.numCols r m) := by
  rw [barBars, List.Nodup.dedup h, List.map_map]
  refine List.map_congr_left fun r hr => ?_
  simp only [Function.comp_apply]
  rw [filter_region_eq_singleton h hr, List.map_cons, List.map_nil,
    mean_singleton]

/-- Counterexample to claim C4 as stated: with years selected but an empty
region selection, the filtered data is empty, so the subset matching the
chosen comparison year is empty — yet the container shows the informational
placeholder, not the warning the claim requires. -/
theorem claim4_counterexample :
    (yearSubset (filteredDf dS [2020] []) 2020).rows = [] ∧
    barStage (filteredDf dS [2020] []) [2020] "취업자 (천명)" 2020 =
      .info ∧
    barStage (filteredDf dS [2020] []) [2020] "취업자 (천명)" 2020 ≠
      .warning := by
  refine ⟨rfl, rfl, ?_⟩
  decide

/-- Claim C4 (amended): if no years are selected the informational placeholder
is shown; if the filtered data is non-empty but its subset for the chosen
comparison year is empty, the warning placeholder is shown (an empty filtered
set falls back to the informational placeholder); otherwise the chart is drawn
from the single-year subset, and when each region occurs once in that subset
it gets exactly one bar whose height is that row's metric value. -/
theorem claim4_bar_chart (d : Dataset) (Y : List Int) (R : List String)
    (m : String) (cy : Int) :
    (Y = [] → barStage (filteredDf d Y R) Y m cy = .info) ∧
    (filteredRows d Y R ≠ [] → (yearSubset (filteredDf d Y R) cy).rows = [] →
      barStage (filteredDf d Y R) Y m cy = .warning) ∧
    ((yearSubset (filteredDf d Y R) cy).rows ≠ [] →
      barStage (filteredDf d Y R) Y m cy =
        .chart (barBars (yearSubset (filteredDf d Y R) cy) m)) ∧
    (((yearSubset (filteredDf d Y R) cy).rows.map (·.region)).Nodup →
      barBars (yearSubset (filteredDf d Y R) cy) m =
        (yearSubset (filteredDf d Y R) cy).rows.map fun r =>
          (r.region, colVal d.numCols r m)) := by
  refine ⟨?_, ?_, ?_, ?_⟩
  · rintro rfl
    rw [barStage, if_neg]
    rintro ⟨hf, -⟩
    exact hf (filteredRows_nil_left d R)
  · intro h1 h2
    rw [barStage, if_pos ⟨h1, years_ne_nil_of_filtered h1⟩, if_neg
      (by simpa using h2)]
  · intro h
    have hf : filteredRows d Y R ≠ [] := by
      intro he
      refine h ?_
      show (filteredRows d Y R).filter _ = []
      rw [he, List.filter_nil]
    rw [barStage, if_pos ⟨hf, years_ne_nil_of_filtered hf⟩, if_pos h]
  · intro h
    exact barBars_of_nodup _ m h

/-- Witness for C4 on the spec's sample: year 2020, metric employed, regions
A and B give bars of heights 90 and 180 in dataset order. -/
theorem claim4_witness :
    barStage (filteredDf dS [2020, 2021] ["A", "B"]) [2020, 2021]
      "취업자 (천명)" 2020 = .chart [("A", 90), ("B", 180)] := by
  have h3 := (claim4_bar_chart dS [2020, 2021] ["A", "B"] "취업자 (천명)"
    2020).2.2.1 (by decide)
  have h4 := (claim4_bar_chart dS [2020, 2021] ["A", "B"] "취업자 (천명)"
    2020).2.2.2 (by decide)
  rw [h3, h4]
  decide

/-! ### Claims about the correlation-heatmap container -/

/-- Claim C5: a non-empty filtered set with fewer than two numeric columns
yields the warning placeholder (and no correlation matrix), and an empty
filtered set yields the informational placeholder. -/
theorem claim5_heatmap_placeholders (f : Dataset) :
    (f.rows ≠ [] → (numericCols f).length < 2 → heatStage f = .warning) ∧
    (f.rows = [] → heatStage f = .info) := by
  constructor
  · intro h1 h2
    rw [heatStage, if_pos h1, if_neg (by omega)]
  · intro h
    rw [heatStage, if_neg (by simp [h])]

/-- Witness for C5: one numeric column with a row gives the warning
placeholder; an empty filtered set gives the info placeholder. -/
theorem claim5_witness :
    heatStage dOneCol = .warning ∧
    heatStage (⟨sampleCols, []⟩ : Dataset) = .info :=
  ⟨(claim5_heatmap_placeholders dOneCol).1 (by decide) (by decide),
   (claim5_heatmap_placeholders ⟨sampleCols, []⟩).2 rfl⟩

end Silla

namespace Silla

/-! ### Claims about the line-chart container -/

theorem sortedUniqueInt_sorted (xs : List Int) :
    (sortedUniqueInt xs).Sorted (· ≤ ·) :=
  List.sorted_insertionSort _ _

theorem sortedUniqueInt_pairwise_lt (xs : List Int) :
    (sortedUniqueInt xs).Pairwise (· < ·) := by
  have hs : (sortedUniqueInt xs).Pairwise (· ≤ ·) :=
    sortedUniqueInt_sorted xs
  have hnd : (sortedUniqueInt xs).Nodup :=
    (List.perm_insertionSort _ _).nodup_iff.mpr (List.nodup_dedup xs)
  exact (hs.and hnd).imp fun h => lt_of_le_of_ne h.1 h.2

/-- Claim C6: the line chart's plotted subset is exactly the filtered rows of
the single chosen region; when that subset is non-empty the chart is drawn
with its points and forced ticks; consecutive points have strictly increasing
years; and the forced x ticks are precisely the sorted distinct years present
in the subset. -/
theorem claim6_line_chart (d : Dataset) (Y : List Int) (R : List String)
    (m t : String) :
    (∀ r, r ∈ (regionSubset (filteredDf d Y R) t).rows ↔
      r ∈ filteredRows d Y R ∧ r.region = t) ∧
    ((regionSubset (filteredDf d Y R) t).rows ≠ [] →
      lineStage (filteredDf d Y R) R m t =
        .chart (linePoints (regionSubset (filteredDf d Y R) t) m,
          lineTicks (regionSubset (filteredDf d Y R) t))) ∧
    (linePoints (regionSubset (filteredDf d Y R) t) m).Pairwise
      (fun p q => p.1 < q.1) ∧
    (∀ y, y ∈ lineTicks (regionSubset (filteredDf d Y R) t) ↔
      ∃ r ∈ (regionSubset (filteredDf d Y R) t).rows, r.year = y) ∧
    (lineTicks (regionSubset (filteredDf d Y R) t)).Sorted (· ≤ ·) := by
  refine ⟨?_, ?_, ?_, ?_, ?_⟩
  · intro r
    simp [regionSubset, filteredDf, List.mem_filter]
  · intro h
    have hf : filteredRows d Y R ≠ [] := by
      intro he
      refine h ?_
      show (filteredRows d Y R).filter _ = []
      rw [he, List.filter_nil]
    rw [lineStage, if_pos ⟨hf, regions_ne_nil_of_filtered hf⟩, if_pos h]
  · exact List.pairwise_map.mpr (sortedUniqueInt_pairwise_lt _)
  · intro y
    rw [lineTicks, mem_sortedUniqueInt]
    simp [List.mem_map, eq_comm]
  · exact sortedUniqueInt_sorted _

/-- Witness for C6 on the spec's sample for region A, metric employed: points
(2020, 90) then (2021, 95) in year-ascending order, ticks 2020 and 2021. -/
theorem claim6_witness :
    lineStage (filteredDf dA [2020, 2021] ["A"]) ["A"] "취업자 (천명)" "A" =
      .chart ([(2020, 90), (2021, 95)], [2020, 2021]) := by
  have h := (claim6_line_chart dA [2020, 2021] ["A"] "취업자 (천명)"
    "A").2.1 (by decide)
  rw [h]
  congr 1
  rw [linePoints, lineTicks]
  have hyears : sortedUniqueInt
      (((regionSubset (filteredDf dA [2020, 2021] ["A"]) "A").rows).map
        (·.year)) = [2020, 2021] := by decide
  rw [hyears]
  simp only [List.map_cons, List.map_nil]
  have h20 : ((regionSubset (filteredDf dA [2020, 2021] ["A"]) "A").rows.filter
      (fun r => r.year == (2020 : Int))).map
      (fun r => colVal (regionSubset (filteredDf dA [2020, 2021]
        ["A"]) "A").numCols r "취업자 (천명)") = [90] := by decide
  have h21 : ((regionSubset (filteredDf dA [2020, 2021] ["A"]) "A").rows.filter
      (fun r => r.year == (2021 : Int))).map
      (fun r => colVal (regionSubset (filteredDf dA [2020, 2021]
        ["A"]) "A").numCols r "취업자 (천명)") = [95] := by decide
  rw [h20, h21, mean_singleton, mean_singleton]

end Silla

namespace Silla

/-! ### Claims about the correlation computation -/

theorem ssqdm_nonneg (xs : List ℚ) : 0 ≤ ssqdm xs := by
  refine List.sum_nonneg fun x hx => ?_
  obtain ⟨y, -, rfl⟩ := List.mem_map.mp hx
  exact mul_self_nonneg y

theorem zip_self_map_mul (l : List ℚ) :
    ((l.zip l).map fun p => p.1 * p.2) = l.map fun x => x * x := by
  induction l with
  | nil => rfl
  | cons a t ih => simp [ih]

theorem covS_self (xs : List ℚ) : covS xs xs = ssqdm xs := by
  rw [covS, ssqdm, zip_self_map_mul]

theorem seriesOf_length (f : Dataset) (c : String) :
    (seriesOf f c).length = f.rows.length := by
  rw [seriesOf]
  split <;> simp

theorem series_ne_nil_of_ssqdm {xs : List ℚ} (h : ssqdm xs ≠ 0) : xs ≠ [] := by
  rintro rfl
  exact h rfl

/-- Counterexample to claim C8 as stated: on a single-row filtered dataset the
heatmap stage does compute the matrix, but every column is constant there, so
the self-correlation of the `'년도'` column is NaN (absent), not exactly
1.0. -/
theorem claim8_counterexample :
    heatStage dOne = .chart (corrMatrix dOne) ∧
    corrEntry dOne "년도" "년도" = none ∧
    corrEntry dOne "년도" "년도" ≠ some 1 := by
  have hz : ssqdm (seriesOf dOne "년도") = 0 := by
    norm_num [seriesOf, dOne, ssqdm, dev, mean]
  have hnone : corrEntry dOne "년도" "년도" = none := by
    rw [corrEntry, nancorr, if_pos (by rw [hz]; ring)]
  refine ⟨?_, hnone, ?_⟩
  · rw [heatStage, if_pos (by decide), if_pos (by decide)]
  · rw [hnone]
    exact fun hcontra => Option.noConfusion hcontra

/-- Claim C8 (amended): the heatmap stage computes the pairwise correlation
matrix of all numeric columns of the filtered dataset; every defined entry
equals the spec's Pearson formula cov(X,Y)/(σX·σY); and the self-correlation
of a numeric column is exactly 1.0 whenever the column has a nonzero sum of
squared deviations.  A constant (or empty) column instead yields an undefined
(NaN) diagonal entry, as the counterexample shows. -/
theorem claim8_pearson :
    (∀ f : Dataset, f.rows ≠ [] → f.numCols ≠ [] →
      heatStage f = .chart (corrMatrix f)) ∧
    (∀ (f : Dataset) (c : String), ssqdm (seriesOf f c) ≠ 0 →
      corrEntry f c c = some 1) ∧
    (∀ (f : Dataset) (c1 c2 : String) (r : ℝ), corrEntry f c1 c2 = some r →
      r = pearsonSpec (seriesOf f c1) (seriesOf f c2)) := by
  refine ⟨?_, ?_, ?_⟩
  · intro f h1 h2
    have hlen : 1 < (numericCols f).length := by
      have := List.length_pos.mpr h2
      simp only [numericCols, List.length_cons]
      omega
    rw [heatStage, if_pos h1, if_pos hlen]
  · intro f c h
    have hS0 : (0 : ℝ) ≤ ((ssqdm (seriesOf f c) : ℚ) : ℝ) := by
      exact_mod_cast ssqdm_nonneg _
    have hSne : ((ssqdm (seriesOf f c) : ℚ) : ℝ) ≠ 0 := by exact_mod_cast h
    rw [corrEntry, nancorr, if_neg (mul_ne_zero h h), covS_self,
      Real.sqrt_mul_self hS0, div_self hSne]
  · intro f c1 c2 r h
    rw [corrEntry, nancorr] at h
    by_cases hz : ssqdm (seriesOf f c1) * ssqdm (seriesOf f c2) = 0
    · rw [if_pos hz] at h
      cases h
    · rw [if_neg hz] at h
      obtain ⟨hx, hy⟩ := mul_ne_zero_iff.mp hz
      have hx0 : (0 : ℚ) < ssqdm (seriesOf f c1) :=
        lt_of_le_of_ne (ssqdm_nonneg _) (Ne.symm hx)
      have hy0 : (0 : ℚ) < ssqdm (seriesOf f c2) :=
        lt_of_le_of_ne (ssqdm_nonneg _) (Ne.symm hy)
      have hN : 0 < (seriesOf f c1).length :=
        List.length_pos.mpr (series_ne_nil_of_ssqdm hx)
      have hlen2 : (seriesOf f c2).length = (seriesOf f c1).length := by
        rw [seriesOf_length, seriesOf_length]
      have hXpos : (0 : ℝ) < ((ssqdm (seriesOf f c1) : ℚ) : ℝ) := by
        exact_mod_cast hx0
      have hYpos : (0 : ℝ) < ((ssqdm (seriesOf f c2) : ℚ) : ℝ) := by
        exact_mod_cast hy0
      have hnpos : (0 : ℝ) < (((seriesOf f c1).length : ℕ) : ℝ) := by
        exact_mod_cast hN
      have hsx : Real.sqrt ((ssqdm (seriesOf f c1) : ℚ) : ℝ) ≠ 0 :=
        Real.sqrt_ne_zero'.mpr hXpos
      have hsy : Real.sqrt ((ssqdm (seriesOf f c2) : ℚ) : ℝ) ≠ 0 :=
        Real.sqrt_ne_zero'.mpr hYpos
      rw [pearsonSpec, hlen2, Real.sqrt_div (le_of_lt hXpos),
        Real.sqrt_div (le_of_lt hYpos), div_mul_div_comm,
        Real.mul_self_sqrt (le_of_lt hnpos), ← (Option.some.injEq _ _).mp h,
        Real.sqrt_mul (le_of_lt hXpos)]
      field_simp

/-- Witness for C8 (amended) on the two-year sample: the `'년도'` column is
non-constant, its self-correlation is exactly 1, and that value agrees with
the spec's Pearson formula. -/
theorem claim8_witness :
    corrEntry dA "년도" "년도" = some 1 ∧
    (1 : ℝ) = pearsonSpec (seriesOf dA "년도") (seriesOf dA "년도") := by
  have hS : ssqdm (seriesOf dA "년도") ≠ 0 := by
    norm_num [seriesOf, dA, rowA20, rowA21, ssqdm, dev, mean]
  have h1 := claim8_pearson.2.1 dA "년도" hS
  exact ⟨h1, claim8_pearson.2.2 dA "년도" "년도" 1 h1⟩

end Silla
